import Mathlib

/-!
Shallow embedding of the PWM/tachometer validation program
(`hw_fault_simulation.py` and `tacho_test.py`) and proofs of the
specification claims about it.

Conventions of the embedding:
* Python module-level globals of `hw_fault_simulation.py` become the fields
  of `SimState`; every stateful function is a Lean function taking and
  returning a `SimState`.
* Python `int` is `ℤ`; Python real arithmetic (degradation, noise,
  averaging, tolerance deviation) is modelled over `ℚ`; Python `int(x)`
  (truncation toward zero) is `pytrunc`.
* `random.gauss(0, sigma)` is modelled as `sigma * z` where `z : ℚ` is an
  oracle sample supplied as an explicit argument (for `sigma = 0` the
  result is exactly `0`, as in CPython).
* Calls to the hardware layer and to the CSV logging collaborator are
  recorded as explicit event lists so that "no hardware interaction" and
  "exactly one persisted record" are statable.
-/

namespace ThermalQA

/-- Python `int(x)` for a rational: truncation toward zero. -/
def pytrunc (q : ℚ) : ℤ := if 0 ≤ q then ⌊q⌋ else ⌈q⌉

/-- The module-level state of `hw_fault_simulation.py`:
`_current_pwm` and the five fault-configuration globals. -/
structure SimState where
  current_pwm : ℤ
  fan_stall_enabled : Bool
  fan_degradation : ℚ
  tacho_disconnected : Bool
  pwm_disconnected : Bool
  noise_level : ℚ
deriving DecidableEq, Repr

/-- The initial module state: duty 0, no faults, no degradation, no noise. -/
def initState : SimState :=
  { current_pwm := 0
    fan_stall_enabled := false
    fan_degradation := 0
    tacho_disconnected := false
    pwm_disconnected := false
    noise_level := 0 }

/-- Python `_set_pwm_duty_cycle`: unconditionally stores the duty cycle. -/
def fault_free_set_pwm_duty_cycle (s : SimState) (_channel duty_cycle : ℤ) :
    SimState :=
  { s with current_pwm := duty_cycle }

/-- Python `_get_tacho_reading`: 0 below duty 20, else `duty * 40`. -/
def fault_free_get_tacho_reading (s : SimState) (_channel : ℤ) : ℤ :=
  if s.current_pwm < 20 then 0 else s.current_pwm * 40

/-- Python `get_tacho_reading` with faults. `z` is the standard-normal sample
consumed by `random.gauss`; the function returns the (unchanged) state and
the reading, mirroring that the Python body assigns no global. -/
def get_tacho_reading (s : SimState) (channel : ℤ) (z : ℚ) : SimState × ℤ :=
  if s.fan_stall_enabled ∨ s.tacho_disconnected then
    (s, 0)
  else
    let base0 : ℚ := (fault_free_get_tacho_reading s channel : ℚ)
    let base : ℚ :=
      if 0 < s.fan_degradation then base0 * (1 - s.fan_degradation) else base0
    let std_dev : ℚ := base * s.noise_level
    let noise : ℚ := std_dev * z
    (s, max 0 (pytrunc (base + noise)))

/-- Python `set_pwm_duty_cycle` with faults: a no-op when `_pwm_disconnected`. -/
def set_pwm_duty_cycle (s : SimState) (channel duty_cycle : ℤ) : SimState :=
  if s.pwm_disconnected then s
  else fault_free_set_pwm_duty_cycle s channel duty_cycle

/-- Python `simulate_fan_stall`. -/
def simulate_fan_stall (s : SimState) (enable : Bool) : SimState :=
  { s with fan_stall_enabled := enable }

/-- Python `simulate_fan_degradation`: raises `ValueError` outside `[0, 1]`. -/
def simulate_fan_degradation (s : SimState) (degradation_level : ℚ) :
    Except String SimState :=
  if degradation_level < 0 ∨ 1 < degradation_level then
    Except.error "Degradation level must be between 0.0 and 1.0"
  else
    Except.ok { s with fan_degradation := degradation_level }

/-- Python `simulate_disconnected_tacho`. -/
def simulate_disconnected_tacho (s : SimState) (enable : Bool) : SimState :=
  { s with tacho_disconnected := enable }

/-- Python `simulate_disconnected_pwm`. -/
def simulate_disconnected_pwm (s : SimState) (enable : Bool) : SimState :=
  { s with pwm_disconnected := enable }

/-- Python `set_tacho_noise_level`: raises `ValueError` when negative. -/
def set_tacho_noise_level (s : SimState) (noise_factor : ℚ) :
    Except String SimState :=
  if noise_factor < 0 then Except.error "Noise factor must be non-negative"
  else Except.ok { s with noise_level := noise_factor }

/-- Python `reset_all_faults` as shipped. The source line
`global _pwm_disconnected√ß, _noise_level` contains stray bytes: read with
the stray characters as part of the name, the `global` statement declares a
name different from `_pwm_disconnected`, so the assignment
`_pwm_disconnected = False` in the body binds a function local and the
module-level `_pwm_disconnected` keeps its previous value. (Read strictly,
U+221A is not a valid Python identifier character at all and the module
fails to compile.) The other four fault globals are reset. -/
def reset_all_faults (s : SimState) : SimState :=
  { s with
    fan_stall_enabled := false
    fan_degradation := 0
    tacho_disconnected := false
    noise_level := 0 }

/-- Python `reset_all_faults` as the spec describes it (and as the obviously
intended `global _pwm_disconnected, _noise_level` line would behave):
every fault field back to baseline. -/
def reset_all_faults_spec (s : SimState) : SimState :=
  { s with
    fan_stall_enabled := false
    fan_degradation := 0
    tacho_disconnected := false
    pwm_disconnected := false
    noise_level := 0 }

/-! ## Validation engine (`tacho_test.py`) -/

/-- Test outcome, the `"PASS"` / `"FAIL"` strings of the result dict. -/
inductive Outcome
  | PASS
  | FAIL
deriving DecidableEq, Repr

/-- The `error_message` entry: a bare string on the parameter-validation
failure paths, a list of strings on the measurement path. -/
inductive ErrMsg
  | str : String → ErrMsg
  | list : List String → ErrMsg
deriving DecidableEq, Repr

/-- The result dict of `validate_pwm_vs_tacho`. `measured_rpm = none`
models the `None` placed there by the parameter-failure paths. -/
structure VResult where
  result : Outcome
  error_message : ErrMsg
  pwm_value : ℤ
  measured_rpm : Option ℤ
  expected_rpm : Option ℤ
deriving DecidableEq, Repr

/-- A call into the hardware-simulation layer. -/
inductive HWEvent
  | setDuty (channel duty : ℤ)
  | readRpm (channel : ℤ)
deriving DecidableEq, Repr

/-- One `csv_logger.log_row(pwm, expected, measured, outcome)` call;
`measured = none` models both `''` and `None` (the "empty" cell). -/
structure CsvRow where
  pwm : ℤ
  expected : Option ℤ
  measured : Option ℤ
  outcome : Outcome
deriving DecidableEq, Repr

/-- Everything a `validate_pwm_vs_tacho` call produces: the final device
state, the result dict, the CSV rows it logged itself, and the hardware
calls it made. -/
structure VOut where
  state : SimState
  res : VResult
  csvRows : List CsvRow
  hw : List HWEvent
deriving DecidableEq, Repr

/-- Constant `PWM_CHANNEL`. -/
def PWM_CHANNEL : ℤ := 0
/-- Constant `TACHO_CHANNEL`. -/
def TACHO_CHANNEL : ℤ := 0
/-- Constant `RPM_TOLERANCE_PERCENT`. -/
def RPM_TOLERANCE_PERCENT : ℤ := 10
/-- Constant `NUM_SAMPLES`. -/
def NUM_SAMPLES : ℤ := 3

/-- The stall message `f"ERROR: Fan stall detected at PWM {pwm_value}%"`. -/
def stallMessage (pwm_value : ℤ) : String :=
  "ERROR: Fan stall detected at PWM " ++ toString pwm_value ++ "%"

/-- One parameter-validation failure path of `validate_pwm_vs_tacho`:
FAIL result with the given message, `measured_rpm = None`, a CSV row when
a logger is attached, and no hardware call. -/
def invalidParamResult (msg : String) (pwm_value : ℤ) (expected_rpm : Option ℤ)
    (s : SimState) (hasCsv : Bool) : VOut :=
  { state := s
    res :=
      { result := .FAIL
        error_message := .str msg
        pwm_value := pwm_value
        measured_rpm := none
        expected_rpm := expected_rpm }
    csvRows := if hasCsv then [⟨pwm_value, expected_rpm, none, .FAIL⟩] else []
    hw := [] }

/-- The measurement loop: `number_samples` tachometer readings taken in
state `s1` (the state does not change between readings), averaged and
truncated to an integer by `int(...)`. `g i` is the gauss sample of the
`i`-th reading. -/
def measuredOf (s1 : SimState) (number_samples : ℤ) (g : ℕ → ℚ) : ℤ :=
  let readings : List ℤ :=
    (List.range number_samples.toNat).map
      (fun i => (get_tacho_reading s1 TACHO_CHANNEL (g i)).2)
  pytrunc ((readings.sum : ℚ) / (readings.length : ℚ))

/-- Python `validate_pwm_vs_tacho`. `expected_rpm = none` models passing `None`;
`hasCsv` models whether a `csv_logger` was passed; `g` supplies the gauss
samples of the individual readings. -/
def validate_pwm_vs_tacho (s : SimState) (pwm_value : ℤ)
    (expected_rpm : Option ℤ) (tolerance_percent : ℤ)
    (stabilization_time : ℚ) (number_samples : ℤ)
    (hasCsv : Bool) (g : ℕ → ℚ) : VOut :=
  if pwm_value < 0 ∨ 100 < pwm_value then
    invalidParamResult "Invalid PWM value" pwm_value expected_rpm s hasCsv
  else if expected_rpm = none ∨ expected_rpm.getD 0 < 0 then
    invalidParamResult "Invalid expected RPM" pwm_value expected_rpm s hasCsv
  else if tolerance_percent < 0 ∨ 100 < tolerance_percent then
    invalidParamResult "Invalid tolerance percentage" pwm_value expected_rpm s
      hasCsv
  else if stabilization_time < 0 then
    invalidParamResult "Invalid stabilization time" pwm_value expected_rpm s
      hasCsv
  else if number_samples < 1 then
    invalidParamResult "Invalid number of samples" pwm_value expected_rpm s
      hasCsv
  else
    let s1 := set_pwm_duty_cycle s PWM_CHANNEL pwm_value
    let measured_rpm := measuredOf s1 number_samples g
    let messages : List String :=
      if 20 ≤ pwm_value ∧ measured_rpm < 100 then [stallMessage pwm_value]
      else []
    let outcome : Outcome :=
      if 0 < expected_rpm.getD 0 then
        let deviation : ℚ :=
          ((measured_rpm : ℚ) - (expected_rpm.getD 0 : ℚ)) /
            (expected_rpm.getD 0 : ℚ) * 100
        if |deviation| ≤ (tolerance_percent : ℚ) then .PASS else .FAIL
      else
        if 20 ≤ pwm_value ∧ measured_rpm < 100 then .FAIL else .PASS
    { state := s1
      res :=
        { result := outcome
          error_message := .list messages
          pwm_value := pwm_value
          measured_rpm := some measured_rpm
          expected_rpm := expected_rpm }
      csvRows := []
      hw := .setDuty PWM_CHANNEL pwm_value ::
        (List.range number_samples.toNat).map (fun _ => .readRpm TACHO_CHANNEL) }

/-- Python `range(start, stop, step)` for positive `step`, unrolled. -/
def pyRangeAux (start step : ℤ) : ℕ → List ℤ
  | 0 => []
  | n + 1 => start :: pyRangeAux (start + step) step n

/-- Python `range(start, stop, step)` with `step > 0`: the values
`start, start + step, ...` strictly below `stop`. -/
def pyRange (start stop step : ℤ) : List ℤ :=
  if 0 < step then
    pyRangeAux start step ((stop - start + step - 1) / step).toNat
  else []

/-- Everything a sweep produces: the failure count, the per-PWM results in
iteration order (the Python dict keyed by distinct ascending PWM values),
all CSV rows logged during the sweep, the final state and the hardware
calls. -/
structure SweepOut where
  failures : ℤ
  results : List (ℤ × VResult)
  csvRows : List CsvRow
  state : SimState
  hw : List HWEvent
deriving DecidableEq, Repr

/-- The loop body of `run_validation_sweep`, over the remaining PWM
values. `dict.get` never raises, so the `except KeyError` branch of the
source is unreachable and a missing map entry flows into
`validate_pwm_vs_tacho` as `None`. After the call the sweep itself logs
one CSV row `(pwm, expected, result['measured_rpm'], result['result'])`
and counts a failure when the outcome is FAIL. -/
def sweepGo (rpmMap : ℤ → Option ℤ) (tolerance_percent : ℤ)
    (stabilization_time : ℚ) (number_samples : ℤ) (hasCsv : Bool)
    (g : ℤ → ℕ → ℚ) : SimState → List ℤ → SweepOut
  | s, [] => ⟨0, [], [], s, []⟩
  | s, pwm :: rest =>
    let expected := rpmMap pwm
    let out := validate_pwm_vs_tacho s pwm expected tolerance_percent
      stabilization_time number_samples hasCsv (g pwm)
    let sweepRow : List CsvRow :=
      if hasCsv then [⟨pwm, expected, out.res.measured_rpm, out.res.result⟩]
      else []
    let tail := sweepGo rpmMap tolerance_percent stabilization_time
      number_samples hasCsv g out.state rest
    ⟨(if out.res.result = .FAIL then 1 else 0) + tail.failures,
     (pwm, out.res) :: tail.results,
     out.csvRows ++ sweepRow ++ tail.csvRows,
     tail.state,
     out.hw ++ tail.hw⟩

/-- Python `run_validation_sweep`: iterate `range(pwm_min, pwm_max + 1, pwm_step)`. -/
def run_validation_sweep (s : SimState) (pwm_min pwm_max pwm_step : ℤ)
    (rpmMap : ℤ → Option ℤ) (tolerance_percent : ℤ)
    (stabilization_time : ℚ) (number_samples : ℤ) (hasCsv : Bool)
    (g : ℤ → ℕ → ℚ) : SweepOut :=
  sweepGo rpmMap tolerance_percent stabilization_time number_samples hasCsv g s
    (pyRange pwm_min (pwm_max + 1) pwm_step)

/-- The `pwm_tacho_map` of the program's `__main__` block. -/
def demo_rpm_map : ℤ → Option ℤ := fun p =>
  if p = 0 then some 0
  else if p = 20 then some 800
  else if p = 40 then some 1600
  else if p = 60 then some 2400
  else if p = 80 then some 3200
  else if p = 100 then some 4000
  else none

/-- Whether one of the five parameter checks of `validate_pwm_vs_tacho`
fires for a call with PWM value `pwm` and expected RPM `exp`. -/
def paramCheckFails (exp : Option ℤ) (tolerance_percent : ℤ)
    (stabilization_time : ℚ) (number_samples : ℤ) (pwm : ℤ) : Bool :=
  decide (pwm < 0 ∨ 100 < pwm) ||
  decide (exp = none ∨ exp.getD 0 < 0) ||
  decide (tolerance_percent < 0 ∨ 100 < tolerance_percent) ||
  decide (stabilization_time < 0) ||
  decide (number_samples < 1)

/-! ## Operations of the two layers, as a single step type

Used to state state invariants over arbitrary call sequences. -/

/-- One call to the Signal Model / Validation Engine surface. -/
inductive Op
  | setDuty (channel duty : ℤ)
  | readTacho (channel : ℤ) (z : ℚ)
  | validate (pwm : ℤ) (expected : Option ℤ) (tol : ℤ) (st : ℚ) (ns : ℤ)
      (hasCsv : Bool) (g : ℕ → ℚ)
  | sweep (pmin pmax pstep : ℤ) (rpmMap : ℤ → Option ℤ) (tol : ℤ) (st : ℚ)
      (ns : ℤ) (hasCsv : Bool) (g : ℤ → ℕ → ℚ)
  | stall (enable : Bool)
  | degrade (level : ℚ)
  | discTacho (enable : Bool)
  | discPwm (enable : Bool)
  | noise (factor : ℚ)
  | reset

/-- The state transition of one operation. For the two fault setters that
may raise `ValueError`, the raise happens before any assignment, so the
state is unchanged on the error path. -/
def applyOp (s : SimState) : Op → SimState
  | .setDuty ch d => set_pwm_duty_cycle s ch d
  | .readTacho ch z => (get_tacho_reading s ch z).1
  | .validate pwm exp tol st ns hasCsv g =>
    (validate_pwm_vs_tacho s pwm exp tol st ns hasCsv g).state
  | .sweep pmin pmax pstep rpmMap tol st ns hasCsv g =>
    (run_validation_sweep s pmin pmax pstep rpmMap tol st ns hasCsv g).state
  | .stall b => simulate_fan_stall s b
  | .degrade q => ((simulate_fan_degradation s q).toOption).getD s
  | .discTacho b => simulate_disconnected_tacho s b
  | .discPwm b => simulate_disconnected_pwm s b
  | .noise q => ((set_tacho_noise_level s q).toOption).getD s
  | .reset => reset_all_faults s

/-- A direct `set_duty_cycle` call stays within the documented duty range;
all other operations are unrestricted. -/
def dutyBounded : Op → Prop
  | .setDuty _ d => 0 ≤ d ∧ d ≤ 100
  | _ => True

/-- The result dict produced for a sweep point whose PWM value is absent
from the expected-RPM map: `dict.get` hands `None` to the validator, which
fails its PWM check first and otherwise its expected-RPM check. -/
def missingPointResult (pwm : ℤ) : VResult :=
  { result := .FAIL
    error_message := .str
      (if pwm < 0 ∨ 100 < pwm then "Invalid PWM value"
       else "Invalid expected RPM")
    pwm_value := pwm
    measured_rpm := none
    expected_rpm := none }

/-! ## Helper lemmas -/

/-- Truncation of an integer is that integer. -/
theorem pytrunc_intCast (n : ℤ) : pytrunc (n : ℚ) = n := by
  unfold pytrunc
  split
  · exact Int.floor_intCast n
  · exact Int.ceil_intCast n

/-- Reading the tachometer leaves the module state untouched: the Python
body of `get_tacho_reading` assigns no global. -/
theorem get_tacho_reading_state_eq (s : SimState) (channel : ℤ) (z : ℚ) :
    (get_tacho_reading s channel z).1 = s := by
  unfold get_tacho_reading
  split <;> rfl

/-! ## Claim C10 -/

/-- Claim C10: for every fault configuration and device state,
`get_tacho_reading` modifies no state — `current_pwm` and every fault
field are identical before and after the call. -/
theorem C10_get_tacho_reading_modifies_no_state (s : SimState) (channel : ℤ)
    (z : ℚ) :
    ((get_tacho_reading s channel z).1.current_pwm = s.current_pwm ∧
      (get_tacho_reading s channel z).1.fan_stall_enabled =
        s.fan_stall_enabled ∧
      (get_tacho_reading s channel z).1.fan_degradation = s.fan_degradation ∧
      (get_tacho_reading s channel z).1.tacho_disconnected =
        s.tacho_disconnected ∧
      (get_tacho_reading s channel z).1.pwm_disconnected =
        s.pwm_disconnected ∧
      (get_tacho_reading s channel z).1.noise_level = s.noise_level) ∧
    (get_tacho_reading s channel z).1 = s := by
  have h := get_tacho_reading_state_eq s channel z
  rw [h]
  exact ⟨⟨rfl, rfl, rfl, rfl, rfl, rfl⟩, rfl⟩

/-! ## Claim C6 -/

/-- Claim C6: with `pwm_disconnected` active, `set_duty_cycle` is a no-op:
the state (duty cycle and every fault field) is unchanged and a subsequent
`read_rpm` returns exactly what it returned before the call. -/
theorem C6_set_duty_noop_when_pwm_disconnected (s : SimState)
    (channel duty_cycle : ℤ) (h : s.pwm_disconnected = true) :
    set_pwm_duty_cycle s channel duty_cycle = s ∧
    ∀ rch : ℤ, ∀ z : ℚ,
      get_tacho_reading (set_pwm_duty_cycle s channel duty_cycle) rch z =
        get_tacho_reading s rch z := by
  have hs : set_pwm_duty_cycle s channel duty_cycle = s := by
    unfold set_pwm_duty_cycle
    rw [if_pos h]
  exact ⟨hs, fun rch z => by rw [hs]⟩

/-- Witness for claim C6 at a concrete disconnected state and duty 77. -/
theorem C6_witness :
    set_pwm_duty_cycle { initState with pwm_disconnected := true } 0 77 =
      { initState with pwm_disconnected := true } ∧
    ∀ rch : ℤ, ∀ z : ℚ,
      get_tacho_reading
          (set_pwm_duty_cycle { initState with pwm_disconnected := true } 0 77)
          rch z =
        get_tacho_reading { initState with pwm_disconnected := true } rch z :=
  C6_set_duty_noop_when_pwm_disconnected
    { initState with pwm_disconnected := true } 0 77 rfl

/-! ## Claim C5 -/

/-- Claim C5 is a code bug: `reset_all_faults` resets the stall flag, the
degradation level, the tachometer-disconnect flag and the noise level, but
the stray bytes in its `global` line mean `pwm_disconnected` is NOT
restored to `false` (strictly read, the module does not even compile);
`reset_all_faults_spec`, written from the spec sentence, does restore it. -/
theorem C5_reset_all_faults_bug :
    (reset_all_faults { initState with pwm_disconnected := true
      }).pwm_disconnected = true ∧
    (reset_all_faults_spec { initState with pwm_disconnected := true
      }).pwm_disconnected = false ∧
    ∀ s : SimState,
      (reset_all_faults s).fan_stall_enabled = false ∧
      (reset_all_faults s).fan_degradation = 0 ∧
      (reset_all_faults s).tacho_disconnected = false ∧
      (reset_all_faults s).noise_level = 0 ∧
      (reset_all_faults s).pwm_disconnected = s.pwm_disconnected ∧
      (reset_all_faults s).current_pwm = s.current_pwm :=
  ⟨rfl, rfl, fun _ => ⟨rfl, rfl, rfl, rfl, rfl, rfl⟩⟩

/-! ## Claim C3 -/

/-- Claim C3: with `fan_stalled` or `tacho_disconnected` active,
`read_rpm` returns 0 regardless of duty cycle, degradation and noise;
otherwise with zero noise it returns
`max 0 (trunc (base * (1 - fan_degradation)))` where `base` is 0 below
duty 20 and `duty * 40` from 20 on — in particular exactly `d * 40` for
`d ∈ [20, 100]` with no faults, and 1400 at duty 50 with degradation 0.3. -/
theorem C3_get_tacho_reading_formula (s : SimState) (channel : ℤ) (z : ℚ) :
    ((s.fan_stall_enabled = true ∨ s.tacho_disconnected = true) →
      (get_tacho_reading s channel z).2 = 0) ∧
    (s.fan_stall_enabled = false → s.tacho_disconnected = false →
      s.noise_level = 0 → 0 ≤ s.fan_degradation →
      (get_tacho_reading s channel z).2 =
        max 0 (pytrunc ((fault_free_get_tacho_reading s channel : ℚ) *
          (1 - s.fan_degradation)))) ∧
    (s.fan_stall_enabled = false → s.tacho_disconnected = false →
      s.noise_level = 0 → s.fan_degradation = 0 →
      20 ≤ s.current_pwm → s.current_pwm ≤ 100 →
      (get_tacho_reading s channel z).2 = s.current_pwm * 40) ∧
    (get_tacho_reading
        { initState with current_pwm := 50, fan_degradation := 3 / 10 }
        channel z).2 = 1400 := by
  refine ⟨?_, ?_, ?_, ?_⟩
  · intro h
    unfold get_tacho_reading
    rw [if_pos h]
  · intro h1 h2 hn hd
    unfold get_tacho_reading
    rw [if_neg (by simp [h1, h2])]
    simp only [hn, mul_zero, zero_mul, add_zero]
    rcases lt_or_eq_of_le hd with hd' | hd'
    · rw [if_pos hd']
    · rw [if_neg (by rw [← hd']; exact lt_irrefl 0), ← hd']
      norm_num
  · intro h1 h2 hn hd h20 _h100
    unfold get_tacho_reading
    rw [if_neg (by simp [h1, h2])]
    simp only [hn, hd, lt_self_iff_false, if_false, mul_zero, zero_mul,
      add_zero]
    unfold fault_free_get_tacho_reading
    rw [if_neg (by omega), pytrunc_intCast]
    exact sup_eq_right.mpr (by omega)
  · unfold get_tacho_reading
    rw [if_neg (by simp [initState])]
    unfold fault_free_get_tacho_reading
    simp only [initState]
    rw [if_neg (show ¬((50 : ℤ) < 20) by norm_num)]
    rw [if_pos (show (0 : ℚ) < 3 / 10 by norm_num)]
    norm_num
    rw [show (1400 : ℚ) = ((1400 : ℤ) : ℚ) by norm_num, pytrunc_intCast]
    exact sup_eq_right.mpr (by norm_num)

/-- Witness for claim C3: stalled fan reads 0; a no-fault reading at duty
30 matches the degradation formula; duty 40 with no faults reads
`40 * 40`; duty 50 with degradation 0.3 reads 1400. -/
theorem C3_witness :
    (get_tacho_reading { initState with fan_stall_enabled := true } 0 0).2 =
      0 ∧
    (get_tacho_reading { initState with current_pwm := 30 } 0 0).2 =
      max 0 (pytrunc
        ((fault_free_get_tacho_reading { initState with current_pwm := 30 }
            0 : ℚ) *
          (1 - ({ initState with current_pwm := 30 } :
            SimState).fan_degradation))) ∧
    (get_tacho_reading { initState with current_pwm := 40 } 0 0).2 =
      ({ initState with current_pwm := 40 } : SimState).current_pwm * 40 ∧
    (get_tacho_reading
        { initState with current_pwm := 50, fan_degradation := 3 / 10 }
        0 0).2 = 1400 :=
  ⟨(C3_get_tacho_reading_formula _ 0 0).1 (Or.inl rfl),
   (C3_get_tacho_reading_formula _ 0 0).2.1 rfl rfl rfl (le_refl 0),
   (C3_get_tacho_reading_formula _ 0 0).2.2.1 rfl rfl rfl rfl (by decide)
     (by decide),
   (C3_get_tacho_reading_formula initState 0 0).2.2.2⟩

/-! ## Claim C2 -/

/-- Claim C2: the five parameter checks run in the fixed order PWM value,
expected RPM, tolerance, stabilization time, sample count; the first
failing check returns immediately with exactly its message, with
`measured_rpm` absent, the device state untouched and no hardware call. -/
theorem C2_param_validation_order (s : SimState) (pwm_value : ℤ)
    (expected_rpm : Option ℤ) (tolerance_percent : ℤ)
    (stabilization_time : ℚ) (number_samples : ℤ) (hasCsv : Bool)
    (g : ℕ → ℚ) :
    ((pwm_value < 0 ∨ 100 < pwm_value) →
      validate_pwm_vs_tacho s pwm_value expected_rpm tolerance_percent
          stabilization_time number_samples hasCsv g =
        invalidParamResult "Invalid PWM value" pwm_value expected_rpm s
          hasCsv) ∧
    (¬(pwm_value < 0 ∨ 100 < pwm_value) →
      (expected_rpm = none ∨ expected_rpm.getD 0 < 0) →
      validate_pwm_vs_tacho s pwm_value expected_rpm tolerance_percent
          stabilization_time number_samples hasCsv g =
        invalidParamResult "Invalid expected RPM" pwm_value expected_rpm s
          hasCsv) ∧
    (¬(pwm_value < 0 ∨ 100 < pwm_value) →
      ¬(expected_rpm = none ∨ expected_rpm.getD 0 < 0) →
      (tolerance_percent < 0 ∨ 100 < tolerance_percent) →
      validate_pwm_vs_tacho s pwm_value expected_rpm tolerance_percent
          stabilization_time number_samples hasCsv g =
        invalidParamResult "Invalid tolerance percentage" pwm_value
          expected_rpm s hasCsv) ∧
    (¬(pwm_value < 0 ∨ 100 < pwm_value) →
      ¬(expected_rpm = none ∨ expected_rpm.getD 0 < 0) →
      ¬(tolerance_percent < 0 ∨ 100 < tolerance_percent) →
      stabilization_time < 0 →
      validate_pwm_vs_tacho s pwm_value expected_rpm tolerance_percent
          stabilization_time number_samples hasCsv g =
        invalidParamResult "Invalid stabilization time" pwm_value
          expected_rpm s hasCsv) ∧
    (¬(pwm_value < 0 ∨ 100 < pwm_value) →
      ¬(expected_rpm = none ∨ expected_rpm.getD 0 < 0) →
      ¬(tolerance_percent < 0 ∨ 100 < tolerance_percent) →
      ¬(stabilization_time < 0) →
      number_samples < 1 →
      validate_pwm_vs_tacho s pwm_value expected_rpm tolerance_percent
          stabilization_time number_samples hasCsv g =
        invalidParamResult "Invalid number of samples" pwm_value
          expected_rpm s hasCsv) ∧
    (∀ msg : String,
      (invalidParamResult msg pwm_value expected_rpm s hasCsv).res.result =
        .FAIL ∧
      (invalidParamResult msg pwm_value expected_rpm s
          hasCsv).res.error_message = .str msg ∧
      (invalidParamResult msg pwm_value expected_rpm s
          hasCsv).res.measured_rpm = none ∧
      (invalidParamResult msg pwm_value expected_rpm s hasCsv).hw = [] ∧
      (invalidParamResult msg pwm_value expected_rpm s hasCsv).state = s) := by
  refine ⟨?_, ?_, ?_, ?_, ?_, fun msg => ⟨rfl, rfl, rfl, rfl, rfl⟩⟩
  · intro h1
    unfold validate_pwm_vs_tacho
    rw [if_pos h1]
  · intro h1 h2
    unfold validate_pwm_vs_tacho
    rw [if_neg h1, if_pos h2]
  · intro h1 h2 h3
    unfold validate_pwm_vs_tacho
    rw [if_neg h1, if_neg h2, if_pos h3]
  · intro h1 h2 h3 h4
    unfold validate_pwm_vs_tacho
    rw [if_neg h1, if_neg h2, if_neg h3, if_pos h4]
  · intro h1 h2 h3 h4 h5
    unfold validate_pwm_vs_tacho
    rw [if_neg h1, if_neg h2, if_neg h3, if_neg h4, if_pos h5]

/-- Witness for claim C2: each of the five checks triggered at a concrete
call, in order: PWM 150, expected RPM `None`, tolerance 200,
stabilization time -1, sample count 0. -/
theorem C2_witness :
    validate_pwm_vs_tacho initState 150 (some 800) 10 1 3 true (fun _ => 0) =
      invalidParamResult "Invalid PWM value" 150 (some 800) initState true ∧
    validate_pwm_vs_tacho initState 50 none 10 1 3 true (fun _ => 0) =
      invalidParamResult "Invalid expected RPM" 50 none initState true ∧
    validate_pwm_vs_tacho initState 50 (some 800) 200 1 3 true (fun _ => 0) =
      invalidParamResult "Invalid tolerance percentage" 50 (some 800)
        initState true ∧
    validate_pwm_vs_tacho initState 50 (some 800) 10 (-1) 3 true
        (fun _ => 0) =
      invalidParamResult "Invalid stabilization time" 50 (some 800)
        initState true ∧
    validate_pwm_vs_tacho initState 50 (some 800) 10 1 0 true (fun _ => 0) =
      invalidParamResult "Invalid number of samples" 50 (some 800)
        initState true :=
  ⟨(C2_param_validation_order initState 150 (some 800) 10 1 3 true
      (fun _ => 0)).1 (by norm_num),
   (C2_param_validation_order initState 50 none 10 1 3 true
      (fun _ => 0)).2.1 (by norm_num) (Or.inl rfl),
   (C2_param_validation_order initState 50 (some 800) 200 1 3 true
      (fun _ => 0)).2.2.1 (by norm_num) (by simp) (by norm_num),
   (C2_param_validation_order initState 50 (some 800) 10 (-1) 3 true
      (fun _ => 0)).2.2.2.1 (by norm_num) (by simp) (by norm_num)
     (by norm_num),
   (C2_param_validation_order initState 50 (some 800) 10 1 0 true
      (fun _ => 0)).2.2.2.2.1 (by norm_num) (by simp) (by norm_num)
     (by norm_num) (by norm_num)⟩

/-! ## Claim C1 -/

/-- Claim C1: with valid parameters and `expected_rpm > 0` the outcome is
PASS exactly when the relative deviation is within tolerance (inclusive),
overwriting any FAIL from the stall check while the stall message stays in
the message list; with `expected_rpm = 0` the tolerance check is skipped
and the outcome is FAIL exactly when the stall check fires. -/
theorem C1_tolerance_overrides_stall (s : SimState) (pwm_value e : ℤ)
    (tolerance_percent : ℤ) (stabilization_time : ℚ) (number_samples : ℤ)
    (hasCsv : Bool) (g : ℕ → ℚ)
    (hp0 : 0 ≤ pwm_value) (hp1 : pwm_value ≤ 100) (he : 0 ≤ e)
    (ht0 : 0 ≤ tolerance_percent) (ht1 : tolerance_percent ≤ 100)
    (hst : 0 ≤ stabilization_time) (hns : 1 ≤ number_samples) :
    (validate_pwm_vs_tacho s pwm_value (some e) tolerance_percent
        stabilization_time number_samples hasCsv g).res.measured_rpm =
      some (measuredOf (set_pwm_duty_cycle s PWM_CHANNEL pwm_value)
        number_samples g) ∧
    (0 < e →
      ((validate_pwm_vs_tacho s pwm_value (some e) tolerance_percent
          stabilization_time number_samples hasCsv g).res.result = .PASS ↔
        |((measuredOf (set_pwm_duty_cycle s PWM_CHANNEL pwm_value)
            number_samples g : ℚ) - (e : ℚ)) / (e : ℚ) * 100| ≤
          (tolerance_percent : ℚ))) ∧
    (e = 0 →
      ((validate_pwm_vs_tacho s pwm_value (some e) tolerance_percent
          stabilization_time number_samples hasCsv g).res.result = .FAIL ↔
        (20 ≤ pwm_value ∧
          measuredOf (set_pwm_duty_cycle s PWM_CHANNEL pwm_value)
            number_samples g < 100))) ∧
    ((20 ≤ pwm_value ∧
        measuredOf (set_pwm_duty_cycle s PWM_CHANNEL pwm_value)
          number_samples g < 100) →
      (validate_pwm_vs_tacho s pwm_value (some e) tolerance_percent
          stabilization_time number_samples hasCsv g).res.error_message =
        .list [stallMessage pwm_value]) ∧
    (¬(20 ≤ pwm_value ∧
        measuredOf (set_pwm_duty_cycle s PWM_CHANNEL pwm_value)
          number_samples g < 100) →
      (validate_pwm_vs_tacho s pwm_value (some e) tolerance_percent
          stabilization_time number_samples hasCsv g).res.error_message =
        .list []) := by
  have h1 : ¬(pwm_value < 0 ∨ 100 < pwm_value) := by omega
  have h2 : ¬((some e : Option ℤ) = none ∨
      (some e : Option ℤ).getD 0 < 0) := by
    simp only [Option.getD_some, reduceCtorEq, false_or, not_lt]
    exact he
  have h3 : ¬(tolerance_percent < 0 ∨ 100 < tolerance_percent) := by omega
  have h4 : ¬(stabilization_time < 0) := not_lt.mpr hst
  have h5 : ¬(number_samples < 1) := by omega
  have key : validate_pwm_vs_tacho s pwm_value (some e) tolerance_percent
      stabilization_time number_samples hasCsv g =
    { state := set_pwm_duty_cycle s PWM_CHANNEL pwm_value
      res :=
        { result :=
            if 0 < e then
              (if |((measuredOf (set_pwm_duty_cycle s PWM_CHANNEL
                    pwm_value) number_samples g : ℚ) - (e : ℚ)) / (e : ℚ) *
                    100| ≤ (tolerance_percent : ℚ) then .PASS else .FAIL)
            else
              (if 20 ≤ pwm_value ∧
                  measuredOf (set_pwm_duty_cycle s PWM_CHANNEL pwm_value)
                    number_samples g < 100 then .FAIL else .PASS)
          error_message := .list
            (if 20 ≤ pwm_value ∧
                measuredOf (set_pwm_duty_cycle s PWM_CHANNEL pwm_value)
                  number_samples g < 100 then [stallMessage pwm_value]
             else [])
          pwm_value := pwm_value
          measured_rpm := some (measuredOf
            (set_pwm_duty_cycle s PWM_CHANNEL pwm_value) number_samples g)
          expected_rpm := some e }
      csvRows := []
      hw := .setDuty PWM_CHANNEL pwm_value ::
        (List.range number_samples.toNat).map
          (fun _ => .readRpm TACHO_CHANNEL) } := by
    unfold validate_pwm_vs_tacho
    rw [if_neg h1, if_neg h2, if_neg h3, if_neg h4, if_neg h5]
    rfl
  refine ⟨by rw [key], ?_, ?_, ?_, ?_⟩
  · intro hpos
    rw [key]
    simp only [if_pos hpos]
    split_ifs with hdev
    · simp [hdev]
    · simp [hdev]
  · intro h0
    rw [key]
    simp only [h0, lt_self_iff_false, if_false]
    split_ifs with hstall
    · simp [hstall]
    · simp [hstall]
  · intro hstall
    rw [key]
    simp only [if_pos hstall]
  · intro hstall
    rw [key]
    simp only [if_neg hstall]

/-- Witness for claim C1 at PWM 40, expected RPM 1600, tolerance 10,
stabilization 1 s, 3 samples, no CSV logger and zero noise samples. -/
theorem C1_witness :
    (validate_pwm_vs_tacho initState 40 (some 1600) 10 1 3 false
        (fun _ => 0)).res.measured_rpm =
      some (measuredOf (set_pwm_duty_cycle initState PWM_CHANNEL 40) 3
        (fun _ => 0)) ∧
    (0 < (1600 : ℤ) →
      ((validate_pwm_vs_tacho initState 40 (some 1600) 10 1 3 false
          (fun _ => 0)).res.result = .PASS ↔
        |((measuredOf (set_pwm_duty_cycle initState PWM_CHANNEL 40) 3
            (fun _ => 0) : ℚ) - ((1600 : ℤ) : ℚ)) / ((1600 : ℤ) : ℚ) * 100| ≤
          ((10 : ℤ) : ℚ))) ∧
    ((1600 : ℤ) = 0 →
      ((validate_pwm_vs_tacho initState 40 (some 1600) 10 1 3 false
          (fun _ => 0)).res.result = .FAIL ↔
        (20 ≤ (40 : ℤ) ∧
          measuredOf (set_pwm_duty_cycle initState PWM_CHANNEL 40) 3
            (fun _ => 0) < 100))) ∧
    ((20 ≤ (40 : ℤ) ∧
        measuredOf (set_pwm_duty_cycle initState PWM_CHANNEL 40) 3
          (fun _ => 0) < 100) →
      (validate_pwm_vs_tacho initState 40 (some 1600) 10 1 3 false
          (fun _ => 0)).res.error_message = .list [stallMessage 40]) ∧
    (¬(20 ≤ (40 : ℤ) ∧
        measuredOf (set_pwm_duty_cycle initState PWM_CHANNEL 40) 3
          (fun _ => 0) < 100) →
      (validate_pwm_vs_tacho initState 40 (some 1600) 10 1 3 false
          (fun _ => 0)).res.error_message = .list []) :=
  C1_tolerance_overrides_stall initState 40 1600 10 1 3 false (fun _ => 0)
    (by norm_num) (by norm_num) (by norm_num) (by norm_num) (by norm_num)
    (by norm_num) (by norm_num)

/-! ## Range lemmas -/

/-- Closed form of the unrolled range helper. -/
theorem pyRangeAux_eq_map (start step : ℤ) (n : ℕ) :
    pyRangeAux start step n =
      (List.range n).map (fun i : ℕ => start + step * (i : ℤ)) := by
  induction n generalizing start with
  | zero => rfl
  | succ n ih =>
    rw [show pyRangeAux start step (n + 1) =
        start :: pyRangeAux (start + step) step n from rfl,
      ih (start + step), List.range_succ_eq_map, List.map_cons,
      List.map_map]
    congr 1
    · simp
    · refine List.map_congr_left fun i _ => ?_
      simp only [Function.comp_apply]
      push_cast
      ring

/-- Index bound of the Python range: the `i`-th value exists exactly when
the value is below `stop`. -/
theorem pyRange_index_lt {start stop step : ℤ} (h : 0 < step) (k : ℕ) :
    (k : ℤ) < (stop - start + step - 1) / step ↔ start + step * k < stop := by
  rw [Int.lt_iff_add_one_le, Int.le_ediv_iff_mul_le h]
  constructor <;> intro h' <;> nlinarith

/-- Membership in the Python range, for a positive step. -/
theorem mem_pyRange_iff {start stop step x : ℤ} (h : 0 < step) :
    x ∈ pyRange start stop step ↔
      ∃ k : ℕ, x = start + step * k ∧ x < stop := by
  unfold pyRange
  rw [if_pos h, pyRangeAux_eq_map]
  simp only [List.mem_map, List.mem_range]
  constructor
  · rintro ⟨i, hi, rfl⟩
    exact ⟨i, rfl, (pyRange_index_lt h i).mp (Int.lt_toNat.mp hi)⟩
  · rintro ⟨k, rfl, hlt⟩
    exact ⟨k, Int.lt_toNat.mpr ((pyRange_index_lt h k).mpr hlt), rfl⟩

/-- The Python range is strictly ascending. -/
theorem pyRange_pairwise (start stop step : ℤ) (h : 0 < step) :
    List.Pairwise (fun a b => a < b) (pyRange start stop step) := by
  unfold pyRange
  rw [if_pos h, pyRangeAux_eq_map]
  refine List.Pairwise.map _ ?_ (List.pairwise_lt_range _)
  intro a b hab
  have hab' : (a : ℤ) < (b : ℤ) := by exact_mod_cast hab
  nlinarith

/-! ## Sweep lemmas -/

/-- The sweep produces exactly one result entry per visited PWM value, in
iteration order. -/
theorem sweepGo_results_fst (rpmMap : ℤ → Option ℤ) (tol : ℤ) (st : ℚ)
    (ns : ℤ) (hasCsv : Bool) (g : ℤ → ℕ → ℚ) (L : List ℤ) :
    ∀ s : SimState,
      (sweepGo rpmMap tol st ns hasCsv g s L).results.map Prod.fst = L := by
  induction L with
  | nil => intro s; rfl
  | cons pwm rest ih =>
    intro s
    simp only [sweepGo, List.map_cons]
    rw [ih]

/-- The failure counter equals the number of FAIL entries in the result
set. -/
theorem sweepGo_failures_count (rpmMap : ℤ → Option ℤ) (tol : ℤ) (st : ℚ)
    (ns : ℤ) (hasCsv : Bool) (g : ℤ → ℕ → ℚ) (L : List ℤ) :
    ∀ s : SimState,
      (sweepGo rpmMap tol st ns hasCsv g s L).failures =
        (((sweepGo rpmMap tol st ns hasCsv g s L).results.countP
          (fun r => decide (r.2.result = Outcome.FAIL))) : ℤ) := by
  induction L with
  | nil => intro s; rfl
  | cons pwm rest ih =>
    intro s
    simp only [sweepGo, List.countP_cons]
    rw [ih]
    push_cast
    simp only [decide_eq_true_eq]
    split_ifs with hf <;> ring

/-- A sweep point whose PWM value is absent from the map contributes its
parameter-failure FAIL entry to the result set, whatever the state. -/
theorem sweepGo_missing_mem (rpmMap : ℤ → Option ℤ) (tol : ℤ) (st : ℚ)
    (ns : ℤ) (hasCsv : Bool) (g : ℤ → ℕ → ℚ) (L : List ℤ) :
    ∀ s : SimState, ∀ pwm ∈ L, rpmMap pwm = none →
      (pwm, missingPointResult pwm) ∈
        (sweepGo rpmMap tol st ns hasCsv g s L).results := by
  induction L with
  | nil => intro s pwm h; cases h
  | cons a rest ih =>
    intro s pwm hmem hmiss
    rcases List.mem_cons.mp hmem with rfl | hmem'
    · have hres : (validate_pwm_vs_tacho s pwm (rpmMap pwm) tol st ns hasCsv
          (g pwm)).res = missingPointResult pwm := by
        rw [hmiss]
        unfold validate_pwm_vs_tacho missingPointResult invalidParamResult
        by_cases h1 : pwm < 0 ∨ 100 < pwm
        · rw [if_pos h1, if_pos h1]
        · rw [if_neg h1, if_pos (Or.inl rfl), if_neg h1]
      simp only [sweepGo]
      rw [← hres]
      exact List.mem_cons_self _ _
    · exact List.mem_cons_of_mem _ (ih _ pwm hmem' hmiss)

/-- With a CSV logger attached, `validate_pwm_vs_tacho` itself logs
exactly one row when a parameter check fails and none otherwise. -/
theorem validate_csvRows_length (s : SimState) (pwm : ℤ) (exp : Option ℤ)
    (tol : ℤ) (st : ℚ) (ns : ℤ) (g : ℕ → ℚ) :
    (validate_pwm_vs_tacho s pwm exp tol st ns true g).csvRows.length =
      if paramCheckFails exp tol st ns pwm then 1 else 0 := by
  unfold paramCheckFails
  by_cases h1 : pwm < 0 ∨ 100 < pwm
  · unfold validate_pwm_vs_tacho
    rw [if_pos h1]
    simp [invalidParamResult, h1]
  · by_cases h2 : exp = none ∨ exp.getD 0 < 0
    · unfold validate_pwm_vs_tacho
      rw [if_neg h1, if_pos h2]
      simp [invalidParamResult, h1, h2]
    · by_cases h3 : tol < 0 ∨ 100 < tol
      · unfold validate_pwm_vs_tacho
        rw [if_neg h1, if_neg h2, if_pos h3]
        simp [invalidParamResult, h1, h2, h3]
      · by_cases h4 : st < 0
        · unfold validate_pwm_vs_tacho
          rw [if_neg h1, if_neg h2, if_neg h3, if_pos h4]
          simp [invalidParamResult, h1, h2, h3, h4]
        · by_cases h5 : ns < 1
          · unfold validate_pwm_vs_tacho
            rw [if_neg h1, if_neg h2, if_neg h3, if_neg h4, if_pos h5]
            simp [invalidParamResult, h1, h2, h3, h4, h5]
          · unfold validate_pwm_vs_tacho
            rw [if_neg h1, if_neg h2, if_neg h3, if_neg h4, if_neg h5]
            simp [h1, h2, h3, h4, h5]

/-- With a CSV logger attached, each sweep iteration contributes one row
from the sweep itself plus one more from the validator exactly when the
point fails a parameter check. -/
theorem sweepGo_csvRows_length (rpmMap : ℤ → Option ℤ) (tol : ℤ) (st : ℚ)
    (ns : ℤ) (g : ℤ → ℕ → ℚ) (L : List ℤ) :
    ∀ s : SimState,
      (sweepGo rpmMap tol st ns true g s L).csvRows.length =
        L.length +
          L.countP (fun pwm => paramCheckFails (rpmMap pwm) tol st ns pwm) := by
  induction L with
  | nil => intro s; rfl
  | cons pwm rest ih =>
    intro s
    simp only [sweepGo, List.length_append, List.length_cons,
      List.countP_cons, validate_csvRows_length]
    rw [ih]
    split_ifs with hf <;> simp <;> omega

/-! ## Claim C7 -/

/-- Claim C7: a swept PWM value absent from the expected-RPM map is never
fatal: `dict.get` returns `None`, the validator records a FAIL entry for
the point, the sweep continues with all remaining points and still returns
the full per-point result set. -/
theorem C7_missing_map_entry_not_fatal (s : SimState) (pmin pmax pstep : ℤ)
    (rpmMap : ℤ → Option ℤ) (tol : ℤ) (st : ℚ) (ns : ℤ) (hasCsv : Bool)
    (g : ℤ → ℕ → ℚ) :
    (run_validation_sweep s pmin pmax pstep rpmMap tol st ns hasCsv
        g).results.map Prod.fst = pyRange pmin (pmax + 1) pstep ∧
    ∀ pwm ∈ pyRange pmin (pmax + 1) pstep, rpmMap pwm = none →
      (pwm, missingPointResult pwm) ∈
        (run_validation_sweep s pmin pmax pstep rpmMap tol st ns hasCsv
          g).results ∧
      (missingPointResult pwm).result = .FAIL :=
  ⟨sweepGo_results_fst rpmMap tol st ns hasCsv g _ s,
   fun pwm hmem hmiss =>
     ⟨sweepGo_missing_mem rpmMap tol st ns hasCsv g _ s pwm hmem hmiss,
      rfl⟩⟩

/-- Witness for claim C7: a sweep over the single point 0 with an empty
map still yields its full result set with the FAIL entry for point 0. -/
theorem C7_witness :
    (run_validation_sweep initState 0 0 1 (fun _ => none) 10 1 3 true
        (fun _ _ => 0)).results.map Prod.fst = pyRange 0 (0 + 1) 1 ∧
    ((0, missingPointResult 0) ∈
        (run_validation_sweep initState 0 0 1 (fun _ => none) 10 1 3 true
          (fun _ _ => 0)).results ∧
      (missingPointResult 0).result = .FAIL) :=
  ⟨(C7_missing_map_entry_not_fatal initState 0 0 1 (fun _ => none) 10 1 3
      true (fun _ _ => 0)).1,
   (C7_missing_map_entry_not_fatal initState 0 0 1 (fun _ => none) 10 1 3
      true (fun _ _ => 0)).2 0 (by decide) rfl⟩

/-! ## Claim C8 -/

/-- Claim C8: with `pwm_min ≤ pwm_max` and `pwm_step > 0` the sweep visits
exactly the values `pwm_min + k * pwm_step ≤ pwm_max` in strictly
ascending order, produces one result entry per visited value, and its
failure count equals the number of FAIL entries; the demo sweep 0..100
step 20 over the demo map with no faults and tolerance 10 yields 0
failures and the six points 0, 20, 40, 60, 80, 100 in ascending order. -/
theorem C8_sweep_semantics (s : SimState) (pmin pmax pstep : ℤ)
    (rpmMap : ℤ → Option ℤ) (tol : ℤ) (st : ℚ) (ns : ℤ) (hasCsv : Bool)
    (g : ℤ → ℕ → ℚ) (hle : pmin ≤ pmax) (hstep : 0 < pstep) :
    (∀ x : ℤ, x ∈ pyRange pmin (pmax + 1) pstep ↔
      ∃ k : ℕ, x = pmin + pstep * k ∧ x ≤ pmax) ∧
    pmin ∈ pyRange pmin (pmax + 1) pstep ∧
    List.Pairwise (fun a b => a < b) (pyRange pmin (pmax + 1) pstep) ∧
    (run_validation_sweep s pmin pmax pstep rpmMap tol st ns hasCsv
        g).results.map Prod.fst = pyRange pmin (pmax + 1) pstep ∧
    (run_validation_sweep s pmin pmax pstep rpmMap tol st ns hasCsv
        g).failures =
      (((run_validation_sweep s pmin pmax pstep rpmMap tol st ns hasCsv
          g).results.countP
        (fun r => decide (r.2.result = Outcome.FAIL))) : ℤ) ∧
    (run_validation_sweep initState 0 100 20 demo_rpm_map 10 1 3 true
        (fun _ _ => 0)).failures = 0 ∧
    (run_validation_sweep initState 0 100 20 demo_rpm_map 10 1 3 true
        (fun _ _ => 0)).results.map Prod.fst = [0, 20, 40, 60, 80, 100] := by
  have hmemiff : ∀ x : ℤ, x ∈ pyRange pmin (pmax + 1) pstep ↔
      ∃ k : ℕ, x = pmin + pstep * k ∧ x ≤ pmax := by
    intro x
    rw [mem_pyRange_iff hstep]
    constructor
    · rintro ⟨k, hk, hlt⟩
      exact ⟨k, hk, by omega⟩
    · rintro ⟨k, hk, hle'⟩
      exact ⟨k, hk, by omega⟩
  refine ⟨hmemiff, ?_, pyRange_pairwise _ _ _ hstep,
    sweepGo_results_fst rpmMap tol st ns hasCsv g _ s,
    sweepGo_failures_count rpmMap tol st ns hasCsv g _ s, ?_, ?_⟩
  · exact (hmemiff pmin).mpr ⟨0, by simp, hle⟩
  · with_unfolding_all rfl
  · with_unfolding_all rfl

/-- Witness for claim C8 instantiated at the demo sweep parameters. -/
theorem C8_witness :
    (∀ x : ℤ, x ∈ pyRange 0 (100 + 1) 20 ↔
      ∃ k : ℕ, x = 0 + 20 * k ∧ x ≤ 100) ∧
    (0 : ℤ) ∈ pyRange 0 (100 + 1) 20 ∧
    List.Pairwise (fun a b => a < b) (pyRange 0 (100 + 1) 20) ∧
    (run_validation_sweep initState 0 100 20 demo_rpm_map 10 1 3 true
        (fun _ _ => 0)).results.map Prod.fst = pyRange 0 (100 + 1) 20 ∧
    (run_validation_sweep initState 0 100 20 demo_rpm_map 10 1 3 true
        (fun _ _ => 0)).failures =
      (((run_validation_sweep initState 0 100 20 demo_rpm_map 10 1 3 true
          (fun _ _ => 0)).results.countP
        (fun r => decide (r.2.result = Outcome.FAIL))) : ℤ) ∧
    (run_validation_sweep initState 0 100 20 demo_rpm_map 10 1 3 true
        (fun _ _ => 0)).failures = 0 ∧
    (run_validation_sweep initState 0 100 20 demo_rpm_map 10 1 3 true
        (fun _ _ => 0)).results.map Prod.fst = [0, 20, 40, 60, 80, 100] :=
  C8_sweep_semantics initState 0 100 20 demo_rpm_map 10 1 3 true
    (fun _ _ => 0) (by norm_num) (by norm_num)

/-! ## Claim C4 -/

/-- Counterexample to claim C4 as stated: a sweep over the single point 0
whose map has no entry emits TWO persisted records for that point (one
from the validator's parameter-failure path, one from the sweep), not
exactly one. -/
theorem C4_counterexample :
    (run_validation_sweep initState 0 0 1 (fun _ => none) 10 1 3 true
        (fun _ _ => 0)).results.map Prod.fst = [0] ∧
    (run_validation_sweep initState 0 0 1 (fun _ => none) 10 1 3 true
        (fun _ _ => 0)).csvRows.length = 2 := by
  constructor
  · with_unfolding_all rfl
  · with_unfolding_all rfl

/-- Claim C4, amended: with a CSV logger attached, each sweep iteration
emits one record from the sweep itself, plus one more from the validator
exactly when the point fails a parameter check (as a missing map entry
does); so the record count is the number of visited points plus the number
of parameter-failing points, never less than one record per point. -/
theorem C4_amended_csv_record_count (s : SimState) (pmin pmax pstep : ℤ)
    (rpmMap : ℤ → Option ℤ) (tol : ℤ) (st : ℚ) (ns : ℤ) (g : ℤ → ℕ → ℚ) :
    (run_validation_sweep s pmin pmax pstep rpmMap tol st ns true
        g).csvRows.length =
      (pyRange pmin (pmax + 1) pstep).length +
        (pyRange pmin (pmax + 1) pstep).countP
          (fun pwm => paramCheckFails (rpmMap pwm) tol st ns pwm) :=
  sweepGo_csvRows_length rpmMap tol st ns g _ s

/-! ## Claim C9 -/

/-- A duty-cycle set with an in-range argument preserves the duty-range
invariant. -/
theorem set_pwm_duty_cycle_bounds {s : SimState} {d : ℤ} (ch : ℤ)
    (hs : 0 ≤ s.current_pwm ∧ s.current_pwm ≤ 100)
    (hd : 0 ≤ d ∧ d ≤ 100) :
    0 ≤ (set_pwm_duty_cycle s ch d).current_pwm ∧
      (set_pwm_duty_cycle s ch d).current_pwm ≤ 100 := by
  unfold set_pwm_duty_cycle fault_free_set_pwm_duty_cycle
  split
  · exact hs
  · exact hd

/-- The validator either leaves the state alone (parameter failure) or
applies a duty cycle it has checked to lie in `[0, 100]`. -/
theorem validate_state_cases (s : SimState) (pwm : ℤ) (exp : Option ℤ)
    (tol : ℤ) (st : ℚ) (ns : ℤ) (hasCsv : Bool) (g : ℕ → ℚ) :
    (validate_pwm_vs_tacho s pwm exp tol st ns hasCsv g).state = s ∨
      ((validate_pwm_vs_tacho s pwm exp tol st ns hasCsv g).state =
          set_pwm_duty_cycle s PWM_CHANNEL pwm ∧ 0 ≤ pwm ∧ pwm ≤ 100) := by
  unfold validate_pwm_vs_tacho
  by_cases h1 : pwm < 0 ∨ 100 < pwm
  · rw [if_pos h1]; exact Or.inl rfl
  · rw [if_neg h1]
    by_cases h2 : exp = none ∨ exp.getD 0 < 0
    · rw [if_pos h2]; exact Or.inl rfl
    · rw [if_neg h2]
      by_cases h3 : tol < 0 ∨ 100 < tol
      · rw [if_pos h3]; exact Or.inl rfl
      · rw [if_neg h3]
        by_cases h4 : st < 0
        · rw [if_pos h4]; exact Or.inl rfl
        · rw [if_neg h4]
          by_cases h5 : ns < 1
          · rw [if_pos h5]; exact Or.inl rfl
          · rw [if_neg h5]; exact Or.inr ⟨rfl, by omega, by omega⟩

/-- The validator preserves the duty-range invariant. -/
theorem validate_state_bounds (s : SimState) (pwm : ℤ) (exp : Option ℤ)
    (tol : ℤ) (st : ℚ) (ns : ℤ) (hasCsv : Bool) (g : ℕ → ℚ)
    (hs : 0 ≤ s.current_pwm ∧ s.current_pwm ≤ 100) :
    0 ≤ (validate_pwm_vs_tacho s pwm exp tol st ns hasCsv g).state.current_pwm ∧
      (validate_pwm_vs_tacho s pwm exp tol st ns hasCsv
        g).state.current_pwm ≤ 100 := by
  rcases validate_state_cases s pwm exp tol st ns hasCsv g with h | ⟨h, h0, h1⟩
  · rw [h]; exact hs
  · rw [h]; exact set_pwm_duty_cycle_bounds _ hs ⟨h0, h1⟩

/-- The sweep preserves the duty-range invariant. -/
theorem sweepGo_state_bounds (rpmMap : ℤ → Option ℤ) (tol : ℤ) (st : ℚ)
    (ns : ℤ) (hasCsv : Bool) (g : ℤ → ℕ → ℚ) (L : List ℤ) :
    ∀ s : SimState, 0 ≤ s.current_pwm ∧ s.current_pwm ≤ 100 →
      0 ≤ (sweepGo rpmMap tol st ns hasCsv g s L).state.current_pwm ∧
        (sweepGo rpmMap tol st ns hasCsv g s L).state.current_pwm ≤ 100 := by
  induction L with
  | nil => intro s hs; exact hs
  | cons pwm rest ih =>
    intro s hs
    simp only [sweepGo]
    exact ih _ (validate_state_bounds s pwm (rpmMap pwm) tol st ns hasCsv
      (g pwm) hs)

/-- Every operation whose direct duty-cycle argument (if any) is in range
preserves the duty-range invariant. -/
theorem applyOp_duty_bounds (op : Op) (s : SimState) (hop : dutyBounded op)
    (hs : 0 ≤ s.current_pwm ∧ s.current_pwm ≤ 100) :
    0 ≤ (applyOp s op).current_pwm ∧ (applyOp s op).current_pwm ≤ 100 := by
  cases op with
  | setDuty ch d => exact set_pwm_duty_cycle_bounds ch hs hop
  | readTacho ch z =>
    show 0 ≤ (get_tacho_reading s ch z).1.current_pwm ∧
      (get_tacho_reading s ch z).1.current_pwm ≤ 100
    rw [get_tacho_reading_state_eq]
    exact hs
  | validate pwm exp tol st ns hasCsv g =>
    exact validate_state_bounds s pwm exp tol st ns hasCsv g hs
  | sweep pmin pmax pstep rpmMap tol st ns hasCsv g =>
    exact sweepGo_state_bounds rpmMap tol st ns hasCsv g _ s hs
  | stall b => exact hs
  | degrade q =>
    show 0 ≤ (((simulate_fan_degradation s q).toOption).getD s).current_pwm ∧
      (((simulate_fan_degradation s q).toOption).getD s).current_pwm ≤ 100
    unfold simulate_fan_degradation
    split
    · exact hs
    · exact hs
  | discTacho b => exact hs
  | discPwm b => exact hs
  | noise q =>
    show 0 ≤ (((set_tacho_noise_level s q).toOption).getD s).current_pwm ∧
      (((set_tacho_noise_level s q).toOption).getD s).current_pwm ≤ 100
    unfold set_tacho_noise_level
    split
    · exact hs
    · exact hs
  | reset => exact hs

/-- Counterexample to claim C9 as stated: from the initial state, a direct
`set_duty_cycle` call with the out-of-range integer 150 drives
`current_pwm` to 150, violating the `[0, 100]` invariant — the layer
applies the duty cycle unconditionally. -/
theorem C9_counterexample :
    (0 ≤ initState.current_pwm ∧ initState.current_pwm ≤ 100) ∧
    ([Op.setDuty PWM_CHANNEL 150].foldl applyOp initState).current_pwm =
      150 ∧
    ¬(([Op.setDuty PWM_CHANNEL 150].foldl applyOp
        initState).current_pwm ≤ 100) := by
  refine ⟨⟨?_, ?_⟩, ?_, ?_⟩ <;> decide

/-- Claim C9, amended: starting from any state satisfying the `[0, 100]`
duty invariant (the initial state in particular), the invariant is
preserved by every sequence of Signal Model and Validation Engine
operations in which each direct `set_duty_cycle` call has its argument in
`[0, 100]`; an out-of-range direct call violates it. -/
theorem C9_amended_duty_invariant (ops : List Op) :
    ∀ s : SimState, (∀ op ∈ ops, dutyBounded op) →
      0 ≤ s.current_pwm ∧ s.current_pwm ≤ 100 →
      0 ≤ (ops.foldl applyOp s).current_pwm ∧
        (ops.foldl applyOp s).current_pwm ≤ 100 := by
  induction ops with
  | nil => intro s _ hs; exact hs
  | cons op rest ih =>
    intro s hops hs
    rw [List.foldl_cons]
    exact ih _ (fun o ho => hops o (List.mem_cons_of_mem _ ho))
      (applyOp_duty_bounds op s (hops op (List.mem_cons_self _ _)) hs)

/-- Witness for the amended claim C9 on a concrete operation sequence
mixing sets, a validation, a reset and a fault toggle. -/
theorem C9_witness :
    0 ≤ (([Op.setDuty PWM_CHANNEL 50,
        Op.validate 60 (some 2400) 10 1 3 false (fun _ => 0),
        Op.reset, Op.discPwm true,
        Op.setDuty PWM_CHANNEL 100]).foldl applyOp initState).current_pwm ∧
      (([Op.setDuty PWM_CHANNEL 50,
        Op.validate 60 (some 2400) 10 1 3 false (fun _ => 0),
        Op.reset, Op.discPwm true,
        Op.setDuty PWM_CHANNEL 100]).foldl applyOp
          initState).current_pwm ≤ 100 :=
  C9_amended_duty_invariant
    [Op.setDuty PWM_CHANNEL 50,
     Op.validate 60 (some 2400) 10 1 3 false (fun _ => 0),
     Op.reset, Op.discPwm true, Op.setDuty PWM_CHANNEL 100]
    initState
    (by
      intro op hop
      simp only [List.mem_cons, List.not_mem_nil, or_false] at hop
      rcases hop with rfl | rfl | rfl | rfl | rfl <;> trivial)
    (by constructor <;> decide)

end ThermalQA
